import Mathlib

set_option autoImplicit false

/-!
Shallow embedding of the tag admin route handlers
(`GET`/`PATCH`/`DELETE /api/admin/tags/[id]`) and of the blog `PostCard`
component, together with proofs of the spec's testable properties.

Conventions of the embedding:
* The Prisma store is a `DB`: a list of tag records plus a list of posts,
  each post carrying the ids of the tags attached to it; the derived
  `_count.posts` of a tag is computed from that list.
* JavaScript truthiness on `string | undefined | null` values is modelled
  by `truthy : Option String → Bool` (absent and empty string are falsy).
* Each handler is a function from session, path id (and validated body)
  and the current `DB` to an HTTP-style `Resp` and the resulting `DB`;
  read-only handlers return just the `Resp`.
* `prisma.tag.update` on a missing record throws; the handler's catch-all
  turns that into a 500 response, which the embedding returns directly.
-/

namespace TagApi

/-- JavaScript truthiness of a `string | undefined | null` value:
`undefined`/`null` and the empty string are falsy. -/
def truthy : Option String → Bool
  | none => false
  | some s => !(s == "")

/-- The `user` object inside a session; only the `id` field is consulted
by these handlers (`session?.user?.id`). -/
structure User where
  id : Option String
  deriving DecidableEq, Repr

/-- A resolved auth session (`await auth()` returns one or `null`). -/
structure Session where
  user : Option User
  deriving DecidableEq, Repr

/-- The check `session?.user` used by `GET` and `DELETE`:
a session is present and carries a user object (objects are truthy). -/
def sessionHasUser : Option Session → Bool
  | none => false
  | some s => s.user.isSome

/-- The chain `session?.user?.id` used by `PATCH`, as an optional string. -/
def sessionUserId : Option Session → Option String
  | none => none
  | some s =>
    match s.user with
    | none => none
    | some u => u.id

/-- A tag record as stored (`id`, `name`, `slug`). -/
structure Tag where
  id : String
  name : String
  slug : String
  deriving DecidableEq, Repr

/-- A post, reduced to the ids of the tags associated with it
(all the handlers consult about posts is the per-tag count). -/
structure Post where
  tagIds : List String
  deriving DecidableEq, Repr

/-- The persistent store the handlers read and write. -/
structure DB where
  tags : List Tag
  posts : List Post
  deriving DecidableEq, Repr

/-- `prisma.tag.findUnique({ where: { id } })`. -/
def findUniqueTag (db : DB) (id : String) : Option Tag :=
  db.tags.find? (fun t => t.id == id)

/-- The derived `_count.posts` of the tag with the given id:
how many posts are associated with it. -/
def postCount (db : DB) (id : String) : Nat :=
  (db.posts.filter (fun p => p.tagIds.contains id)).length

/-- The JSON payload of a response: a tag with its post count, an
`{ error: ... }` object, or a `{ message: ... }` object. -/
inductive Payload where
  | tagBody (t : Tag) (posts : Nat)
  | errBody (msg : String)
  | msgBody (msg : String)
  deriving DecidableEq, Repr

/-- An HTTP-style response: status code and JSON payload. -/
structure Resp where
  status : Nat
  payload : Payload
  deriving DecidableEq, Repr

/-- The 401 response shared by all three handlers. -/
def unauthorizedResp : Resp := ⟨401, .errBody "Unauthorized"⟩

/-- `GET /api/admin/tags/[id]`: session gate, lookup with post count,
404 when absent, 200 with the record otherwise. -/
def GET (session : Option Session) (id : String) (db : DB) : Resp :=
  if !(sessionHasUser session) then unauthorizedResp
  else
    match findUniqueTag db id with
    | none => ⟨404, .errBody "Tag not found"⟩
    | some tag => ⟨200, .tagBody tag (postCount db tag.id)⟩

/-- Modelled from the spec: the validation schema (`TagUpdateSchema` with
`id` omitted) lives in `lib/validations`, which is not among the shown
sources. The spec describes the accepted body as an object with optional
`name` (string) and optional `slug` (string), unknown fields rejected.
This structure is the validated payload (`validatedFields.data`). -/
structure TagUpdateData where
  name : Option String
  slug : Option String
  deriving DecidableEq, Repr

/-- The Prisma `OR` condition list built by the PATCH uniqueness check:
a `{ name }` clause is included only when `name` is truthy, likewise
`{ slug }` (`[...(name ? [{ name }] : []), ...(slug ? [{ slug }] : [])]`). -/
def orConds (name slug : Option String) (t : Tag) : Bool :=
  (truthy name && (t.name == name.getD ""))
    || (truthy slug && (t.slug == slug.getD ""))

/-- `prisma.tag.findFirst` with `AND [ NOT { id }, OR conds ]`:
the first other tag (different id) matching a supplied name or slug. -/
def findConflictingTag (db : DB) (id : String) (name slug : Option String) :
    Option Tag :=
  db.tags.find? (fun t => (!(t.id == id)) && orConds name slug t)

/-- Building `updateData` and applying it: a field is written exactly when
it is `!== undefined` in the validated data. -/
def applyUpdate (t : Tag) (d : TagUpdateData) : Tag :=
  { t with
    name := match d.name with | some n => n | none => t.name
    slug := match d.slug with | some s => s | none => t.slug }

/-- The effect of `prisma.tag.update({ where: { id }, data })` on the
store: the record addressed by `id` is replaced. -/
def replaceTag (db : DB) (id : String) (t' : Tag) : DB :=
  { db with tags := db.tags.map (fun u => if u.id == id then t' else u) }

/-- The tail of PATCH from `prisma.tag.update` on: on a missing record the
update throws (Prisma P2025), the catch-all logs and answers 500;
otherwise the supplied fields are applied and the updated record is
returned with its post count. -/
def patchUpdate (id : String) (body : TagUpdateData) (db : DB) : Resp × DB :=
  match findUniqueTag db id with
  | none => (⟨500, .errBody "Internal server error"⟩, db)
  | some t =>
    (⟨200, .tagBody (applyUpdate t body) (postCount db (applyUpdate t body).id)⟩,
     replaceTag db id (applyUpdate t body))

/-- `PATCH /api/admin/tags/[id]` on a validated body: session gate on
`session?.user?.id`, uniqueness pre-check when a truthy name or slug is
supplied, then the update. -/
def PATCH (session : Option Session) (id : String) (body : TagUpdateData)
    (db : DB) : Resp × DB :=
  if !(truthy (sessionUserId session)) then (unauthorizedResp, db)
  else
    if truthy body.name || truthy body.slug then
      match findConflictingTag db id body.name body.slug with
      | some _ =>
        (⟨400, .errBody "A tag with this name or slug already exists"⟩, db)
      | none => patchUpdate id body db
    else patchUpdate id body db

/-- `DELETE /api/admin/tags/[id]`: session gate, lookup with post count,
404 when absent, 400 when the tag still has posts, otherwise the record
is removed and a success message returned. -/
def DELETE (session : Option Session) (id : String) (db : DB) : Resp × DB :=
  if !(sessionHasUser session) then (unauthorizedResp, db)
  else
    match findUniqueTag db id with
    | none => (⟨404, .errBody "Tag not found"⟩, db)
    | some tag =>
      if postCount db tag.id > 0 then
        (⟨400, .errBody "Cannot delete tag with associated posts"⟩, db)
      else
        (⟨200, .msgBody "Tag deleted successfully"⟩,
         { db with tags := db.tags.filter (fun u => !(u.id == id)) })

end TagApi

namespace BlogUi

/-- A category as supplied to `PostCard` (key and badge text). -/
structure Category where
  id : String
  name : String
  deriving DecidableEq, Repr

/-- A tag reference as supplied to `PostCard` (key and badge text). -/
structure TagRef where
  id : String
  name : String
  deriving DecidableEq, Repr

/-- The post author: name and optional image reference. -/
structure Author where
  name : String
  image : Option String
  deriving DecidableEq, Repr

/-- The post prop of `PostCard`. -/
structure PostData where
  title : String
  slug : String
  excerpt : Option String
  publishedAt : Option String
  createdAt : String
  author : Author
  categories : List Category
  tags : List TagRef
  deriving DecidableEq, Repr

/-- `Array.prototype.slice(start, stop)` for nonnegative indices. -/
def jsSlice {α : Type} (start stop : Nat) (l : List α) : List α :=
  (l.drop start).take (stop - start)

/-- Modelled from the spec: `getAuthorInitial` lives in `blog/utils`,
which is not among the shown sources; the spec describes it as a
single-letter fallback derived from the author's name. -/
def getAuthorInitial (name : String) : String :=
  match name.data with
  | [] => ""
  | c :: _ => String.mk [c.toUpper]

/-- Modelled from the spec: `formatPostDate` lives in `blog/utils`, which
is not among the shown sources; the spec says the rendered date is the
publish date, falling back to the creation date when not yet published. -/
def formatPostDate (publishedAt : Option String) (createdAt : String) :
    String :=
  publishedAt.getD createdAt

/-- One rendered `Badge` element: its variant and text. -/
structure BadgeView where
  variant : String
  text : String
  deriving DecidableEq, Repr

/-- The rendered output of `PostCard`, reduced to its data-bearing parts
in document order. -/
structure PostCardView where
  avatarImage : String
  avatarFallback : String
  authorName : String
  dateText : String
  titleText : String
  titleHref : String
  excerptBlock : Option String
  badges : List BadgeView
  readMoreHref : String
  deriving DecidableEq, Repr

/-- The `PostCard` component as a pure view function. The excerpt block is
guarded by `post.excerpt && ...` (a missing or empty excerpt renders
nothing); category badges come from `post.categories.slice(0, 2)` with
variant `secondary`, tag badges from `post.tags.slice(0, 3)` with variant
`outline`, in that order. -/
def PostCard (post : PostData) : PostCardView :=
  { avatarImage := post.author.image.getD ""
    avatarFallback := getAuthorInitial post.author.name
    authorName := post.author.name
    dateText := formatPostDate post.publishedAt post.createdAt
    titleText := post.title
    titleHref := "/blog/" ++ post.slug
    excerptBlock :=
      match post.excerpt with
      | none => none
      | some e => if e == "" then none else some e
    badges :=
      (jsSlice 0 2 post.categories).map (fun c => ⟨"secondary", c.name⟩)
        ++ (jsSlice 0 3 post.tags).map (fun t => ⟨"outline", t.name⟩)
    readMoreHref := "/blog/" ++ post.slug }

end BlogUi

namespace TagApi

/-! Concrete fixtures used by the witness theorems. -/

/-- A session with a fully identified user. -/
def sessA : Option Session := some ⟨some ⟨some "u1"⟩⟩

/-- A session whose user object carries no id. -/
def sessNoId : Option Session := some ⟨some ⟨none⟩⟩

/-- The tag `t1` of the spec's delete scenario (zero posts). -/
def tagGo : Tag := ⟨"t1", "go", "go"⟩

/-- A tag with one associated post. -/
def tagRust : Tag := ⟨"t2", "rust", "rust"⟩

/-- A store holding `tagGo` (no posts) and `tagRust` (one post). -/
def dbW : DB := ⟨[tagGo, tagRust], [⟨["t2"]⟩]⟩

/-! Helper lemmas. -/

/-- A caller failing the `session?.user` check also fails the
`session?.user?.id` check. -/
theorem userId_falsy_of_no_user (sess : Option Session)
    (hs : sessionHasUser sess = false) :
    truthy (sessionUserId sess) = false := by
  cases sess with
  | none => rfl
  | some s =>
    cases h : s.user with
    | none => simp [sessionUserId, h, truthy]
    | some u => simp [sessionHasUser, h] at hs

/-- After removing every record with the addressed id, the lookup by that
id fails. -/
theorem findUniqueTag_filter_ne (db : DB) (id : String) :
    findUniqueTag ⟨db.tags.filter (fun u => !(u.id == id)), db.posts⟩ id
      = none := by
  unfold findUniqueTag
  rw [List.find?_eq_none]
  intro x hx
  have hne := (List.mem_filter.mp hx).2
  simpa using hne

/-! The claim theorems. -/

/-- Claim C1: a Delete by a caller with a valid session on an existing tag
whose post count is positive answers 400 with the delete-protection error,
leaves the store untouched, and a subsequent Retrieve still returns the
record with its post count. -/
theorem delete_with_posts_conflict (sess : Option Session) (id : String)
    (db : DB) (t : Tag)
    (hs : sessionHasUser sess = true)
    (hf : findUniqueTag db id = some t)
    (hp : 0 < postCount db t.id) :
    DELETE sess id db
        = (⟨400, .errBody "Cannot delete tag with associated posts"⟩, db)
      ∧ GET sess id (DELETE sess id db).2
        = ⟨200, .tagBody t (postCount db t.id)⟩ := by
  have hD : DELETE sess id db
      = (⟨400, .errBody "Cannot delete tag with associated posts"⟩, db) := by
    simp [DELETE, hs, hf, hp]
  refine ⟨hD, ?_⟩
  rw [hD]
  simp [GET, hs, hf]

/-- Claim C1, witness at a concrete store. -/
theorem delete_with_posts_conflict_witness :
    sessionHasUser sessA = true
    ∧ findUniqueTag dbW "t2" = some tagRust
    ∧ 0 < postCount dbW tagRust.id
    ∧ (DELETE sessA "t2" dbW
          = (⟨400, .errBody "Cannot delete tag with associated posts"⟩, dbW)
        ∧ GET sessA "t2" (DELETE sessA "t2" dbW).2
          = ⟨200, .tagBody tagRust (postCount dbW tagRust.id)⟩) :=
  ⟨by decide, by decide, by decide,
    delete_with_posts_conflict sessA "t2" dbW tagRust
      (by decide) (by decide) (by decide)⟩

/-- Claim C2: without a valid session every operation answers 401
Unauthorized and the store is unchanged. -/
theorem no_session_unauthorized (sess : Option Session) (id : String)
    (body : TagUpdateData) (db : DB)
    (hs : sessionHasUser sess = false) :
    GET sess id db = unauthorizedResp
    ∧ PATCH sess id body db = (unauthorizedResp, db)
    ∧ DELETE sess id db = (unauthorizedResp, db) := by
  have hid := userId_falsy_of_no_user sess hs
  refine ⟨?_, ?_, ?_⟩ <;> simp [GET, PATCH, DELETE, hs, hid]

/-- Claim C2, witness with no session at all. -/
theorem no_session_unauthorized_witness :
    sessionHasUser (none : Option Session) = false
    ∧ (GET none "t1" dbW = unauthorizedResp
        ∧ PATCH none "t1" ⟨none, none⟩ dbW = (unauthorizedResp, dbW)
        ∧ DELETE none "t1" dbW = (unauthorizedResp, dbW)) :=
  ⟨by decide,
    no_session_unauthorized none "t1" ⟨none, none⟩ dbW (by decide)⟩

/-- Claim C5: a Delete by a caller with a valid session on an existing tag
with zero posts answers 200 with the acknowledgment and removes the
record, and a subsequent Retrieve of the same id answers 404. -/
theorem delete_then_get_notFound (sess sess2 : Option Session) (id : String)
    (db : DB) (t : Tag)
    (hs : sessionHasUser sess = true)
    (hs2 : sessionHasUser sess2 = true)
    (hf : findUniqueTag db id = some t)
    (hp : postCount db t.id = 0) :
    DELETE sess id db
        = (⟨200, .msgBody "Tag deleted successfully"⟩,
           ⟨db.tags.filter (fun u => !(u.id == id)), db.posts⟩)
      ∧ GET sess2 id (DELETE sess id db).2
        = ⟨404, .errBody "Tag not found"⟩ := by
  have hD : DELETE sess id db
      = (⟨200, .msgBody "Tag deleted successfully"⟩,
         ⟨db.tags.filter (fun u => !(u.id == id)), db.posts⟩) := by
    simp [DELETE, hs, hf, hp]
  refine ⟨hD, ?_⟩
  rw [hD]
  simp [GET, hs2, findUniqueTag_filter_ne]

/-- Claim C5, witness at the spec's scenario (`t1` with zero posts). -/
theorem delete_then_get_notFound_witness :
    sessionHasUser sessA = true
    ∧ findUniqueTag dbW "t1" = some tagGo
    ∧ postCount dbW tagGo.id = 0
    ∧ (DELETE sessA "t1" dbW
          = (⟨200, .msgBody "Tag deleted successfully"⟩,
             ⟨dbW.tags.filter (fun u => !(u.id == "t1")), dbW.posts⟩)
        ∧ GET sessA "t1" (DELETE sessA "t1" dbW).2
          = ⟨404, .errBody "Tag not found"⟩) :=
  ⟨by decide, by decide, by decide,
    delete_then_get_notFound sessA sessA "t1" dbW tagGo
      (by decide) (by decide) (by decide) (by decide)⟩

/-- Claim C6: a Retrieve with a valid session on an id with no matching
tag answers 404 Not Found, never 500 (the persistence layer is assumed
not to fail, as in this embedding). -/
theorem get_missing_notFound (sess : Option Session) (id : String) (db : DB)
    (hs : sessionHasUser sess = true)
    (hf : findUniqueTag db id = none) :
    GET sess id db = ⟨404, .errBody "Tag not found"⟩
    ∧ (GET sess id db).status ≠ 500 := by
  have h : GET sess id db = ⟨404, .errBody "Tag not found"⟩ := by
    simp [GET, hs, hf]
  exact ⟨h, by rw [h]; decide⟩

/-- Claim C6, witness at an id absent from the store. -/
theorem get_missing_notFound_witness :
    sessionHasUser sessA = true
    ∧ findUniqueTag dbW "t9" = none
    ∧ (GET sessA "t9" dbW = ⟨404, .errBody "Tag not found"⟩
        ∧ (GET sessA "t9" dbW).status ≠ 500) :=
  ⟨by decide, by decide,
    get_missing_notFound sessA "t9" dbW (by decide) (by decide)⟩

/-- Claim C8: the auth gates differ. A session whose user object carries
no truthy id passes the `session?.user` gate of Retrieve and Delete
(neither can answer 401 for it) but is turned away with 401 by Update. -/
theorem auth_gate_differs (s : Session) (u : User) (id : String)
    (body : TagUpdateData) (db : DB)
    (hu : s.user = some u)
    (hid : truthy u.id = false) :
    sessionHasUser (some s) = true
    ∧ (GET (some s) id db).status ≠ 401
    ∧ ((DELETE (some s) id db).1).status ≠ 401
    ∧ PATCH (some s) id body db = (unauthorizedResp, db) := by
  have hS : sessionHasUser (some s) = true := by simp [sessionHasUser, hu]
  have hI : truthy (sessionUserId (some s)) = false := by
    simp [sessionUserId, hu, hid]
  refine ⟨hS, ?_, ?_, ?_⟩
  · cases hf : findUniqueTag db id <;> simp [GET, hS, hf]
  · cases hf : findUniqueTag db id with
    | none => simp [DELETE, hS, hf]
    | some t =>
      by_cases hp : postCount db t.id > 0 <;> simp [DELETE, hS, hf, hp]
  · simp [PATCH, hI]

/-- Claim C8, witness: a session whose user has no id. -/
theorem auth_gate_differs_witness :
    (⟨some ⟨none⟩⟩ : Session).user = some ⟨none⟩
    ∧ truthy (⟨none⟩ : User).id = false
    ∧ (sessionHasUser (some ⟨some ⟨none⟩⟩) = true
        ∧ (GET (some ⟨some ⟨none⟩⟩) "t1" dbW).status ≠ 401
        ∧ ((DELETE (some ⟨some ⟨none⟩⟩) "t1" dbW).1).status ≠ 401
        ∧ PATCH (some ⟨some ⟨none⟩⟩) "t1" ⟨none, none⟩ dbW
            = (unauthorizedResp, dbW)) :=
  ⟨rfl, by decide,
    auth_gate_differs ⟨some ⟨none⟩⟩ ⟨none⟩ "t1" ⟨none, none⟩ dbW
      rfl (by decide)⟩

/-- Claim C7 counterexample: with a valid session and a valid body, an
Update addressing the missing id `t0` answers 400 (the uniqueness
pre-check fires on the supplied name `rust`, held by `t2`), not 500, so
the claim's universal `returns Internal` fails. -/
theorem patch_missing_id_counterexample :
    truthy (sessionUserId sessA) = true
    ∧ findUniqueTag dbW "t0" = none
    ∧ (PATCH sessA "t0" ⟨some "rust", none⟩ dbW).1.status = 400
    ∧ (PATCH sessA "t0" ⟨some "rust", none⟩ dbW).1.status ≠ 500 := by
  decide

/-- Claim C7 amended: an authorized Update on an id with no matching tag
never answers 404; when no other tag matches a supplied value the
missing-record failure of the persistence update surfaces as 500. -/
theorem patch_missing_id_internal (sess : Option Session) (id : String)
    (body : TagUpdateData) (db : DB)
    (ha : truthy (sessionUserId sess) = true)
    (hf : findUniqueTag db id = none) :
    (findConflictingTag db id body.name body.slug = none →
        PATCH sess id body db = (⟨500, .errBody "Internal server error"⟩, db))
    ∧ (PATCH sess id body db).1.status ≠ 404 := by
  constructor
  · intro hc
    cases hb : (truthy body.name || truthy body.slug) <;>
      simp [PATCH, ha, hb, hc, patchUpdate, hf]
  · cases hb : (truthy body.name || truthy body.slug) with
    | false => simp [PATCH, ha, hb, patchUpdate, hf]
    | true =>
      cases hc : findConflictingTag db id body.name body.slug <;>
        simp [PATCH, ha, hb, hc, patchUpdate, hf]

/-- Claim C7 amended, witness: empty body, missing id, no conflict. -/
theorem patch_missing_id_internal_witness :
    truthy (sessionUserId sessA) = true
    ∧ findUniqueTag dbW "t0" = none
    ∧ ((findConflictingTag dbW "t0" (⟨none, none⟩ : TagUpdateData).name
          (⟨none, none⟩ : TagUpdateData).slug = none →
        PATCH sessA "t0" ⟨none, none⟩ dbW
          = (⟨500, .errBody "Internal server error"⟩, dbW))
        ∧ (PATCH sessA "t0" ⟨none, none⟩ dbW).1.status ≠ 404) :=
  ⟨by decide, by decide,
    patch_missing_id_internal sessA "t0" ⟨none, none⟩ dbW
      (by decide) (by decide)⟩

/-- A tag whose stored name is the empty string. -/
def tagEmptyName : Tag := ⟨"a", "", "sa"⟩

/-- The tag `b` targeted by the C3 counterexample update. -/
def tagZig : Tag := ⟨"b", "zig", "sb"⟩

/-- A store holding a tag with empty name next to `tagZig`. -/
def dbEmptyName : DB := ⟨[tagEmptyName, tagZig], []⟩

/-- Claim C3 counterexample: the body supplies `name` equal to the name of
the other existing tag `a` (the empty string), yet the handler answers
200 and writes (the truthiness-guarded uniqueness pre-check skips falsy
values), so the claim's universal Conflict-and-no-write fails. -/
theorem patch_duplicate_empty_counterexample :
    truthy (sessionUserId sessA) = true
    ∧ tagEmptyName ∈ dbEmptyName.tags
    ∧ tagEmptyName.id ≠ "b"
    ∧ (⟨some "", none⟩ : TagUpdateData).name = some tagEmptyName.name
    ∧ (PATCH sessA "b" ⟨some "", none⟩ dbEmptyName).1.status = 200
    ∧ (PATCH sessA "b" ⟨some "", none⟩ dbEmptyName).2 ≠ dbEmptyName := by
  decide

/-- Claim C3 amended: an authorized Update whose validated body supplies a
non-empty name or non-empty slug equal to the corresponding value of some
other existing tag (different id) answers 400 Conflict and the store is
unchanged. -/
theorem patch_duplicate_conflict (sess : Option Session) (id : String)
    (body : TagUpdateData) (db : DB) (other : Tag)
    (ha : truthy (sessionUserId sess) = true)
    (hmem : other ∈ db.tags)
    (hne : other.id ≠ id)
    (hmatch : (∃ n, body.name = some n ∧ n ≠ "" ∧ other.name = n)
        ∨ (∃ s, body.slug = some s ∧ s ≠ "" ∧ other.slug = s)) :
    PATCH sess id body db
      = (⟨400, .errBody "A tag with this name or slug already exists"⟩, db) := by
  have hpred : ((!(other.id == id)) && orConds body.name body.slug other)
      = true := by
    rcases hmatch with ⟨n, hn, hn0, hon⟩ | ⟨sl, hsl, hs0, hos⟩
    · simp [orConds, truthy, hn, hn0, hon, hne]
    · simp [orConds, truthy, hsl, hs0, hos, hne]
  have hguard : (truthy body.name || truthy body.slug) = true := by
    rcases hmatch with ⟨n, hn, hn0, _⟩ | ⟨sl, hsl, hs0, _⟩
    · simp [truthy, hn, hn0]
    · simp [truthy, hsl, hs0]
  have hsome : (findConflictingTag db id body.name body.slug).isSome := by
    unfold findConflictingTag
    rw [List.find?_isSome]
    exact ⟨other, hmem, hpred⟩
  cases hc : findConflictingTag db id body.name body.slug with
  | none => rw [hc] at hsome; simp at hsome
  | some c => simp [PATCH, ha, hguard, hc]

/-- Claim C3 amended, witness at the spec's rename scenario. -/
theorem patch_duplicate_conflict_witness :
    truthy (sessionUserId sessA) = true
    ∧ tagRust ∈ dbW.tags
    ∧ tagRust.id ≠ "t1"
    ∧ ((∃ n, (⟨some "rust", none⟩ : TagUpdateData).name = some n
          ∧ n ≠ "" ∧ tagRust.name = n)
        ∨ (∃ sl, (⟨some "rust", none⟩ : TagUpdateData).slug = some sl
          ∧ sl ≠ "" ∧ tagRust.slug = sl))
    ∧ PATCH sessA "t1" ⟨some "rust", none⟩ dbW
        = (⟨400, .errBody "A tag with this name or slug already exists"⟩,
           dbW) :=
  ⟨by decide, by decide, by decide,
    Or.inl ⟨"rust", rfl, by decide, by decide⟩,
    patch_duplicate_conflict sessA "t1" ⟨some "rust", none⟩ dbW tagRust
      (by decide) (by decide) (by decide)
      (Or.inl ⟨"rust", rfl, by decide, by decide⟩)⟩

/-- Replacing each element satisfying `p` by `t` is the identity when
every such element already is `t`. -/
theorem map_ite_eq_self {α : Type} (l : List α) (p : α → Bool) (t : α)
    (h : ∀ u ∈ l, p u = true → u = t) :
    l.map (fun u => if p u then t else u) = l := by
  induction l with
  | nil => rfl
  | cons x xs ih =>
    simp only [List.map_cons]
    congr 1
    · by_cases hx : p x = true
      · simp [hx, (h x (by simp) hx).symm]
      · simp [hx]
    · exact ih (fun u hu => h u (by simp [hu]))

/-- When ids are unique in the store, writing back the record found under
`id` leaves the store unchanged. -/
theorem replaceTag_self (db : DB) (id : String) (t : Tag)
    (hnodup : (db.tags.map Tag.id).Nodup)
    (hf : findUniqueTag db id = some t) :
    replaceTag db id t = db := by
  have hmem : t ∈ db.tags := List.mem_of_find?_eq_some hf
  have hid : t.id = id := by
    have := List.find?_some hf
    simpa using this
  have hkey : ∀ u ∈ db.tags, (u.id == id) = true → u = t := by
    intro u hu hui
    have huid : u.id = t.id := by
      rw [hid]
      simpa using hui
    exact List.inj_on_of_nodup_map hnodup hu hmem huid
  unfold replaceTag
  have := map_ite_eq_self db.tags (fun u => u.id == id) t hkey
  simp only [this]

/-- Claim C4: a successful Update applies exactly the supplied fields:
omitted fields keep their stored value, the id is untouched, records with
a different id are untouched, and with an empty body (and unique ids in
the store) the response is 200 and the store is entirely unchanged. -/
theorem patch_partial_update (sess : Option Session) (id : String)
    (body : TagUpdateData) (db : DB) (t : Tag)
    (ha : truthy (sessionUserId sess) = true)
    (hf : findUniqueTag db id = some t)
    (hc : findConflictingTag db id body.name body.slug = none) :
    PATCH sess id body db
        = (⟨200, .tagBody (applyUpdate t body)
              (postCount db (applyUpdate t body).id)⟩,
           replaceTag db id (applyUpdate t body))
      ∧ (body.name = none → (applyUpdate t body).name = t.name)
      ∧ (body.slug = none → (applyUpdate t body).slug = t.slug)
      ∧ (applyUpdate t body).id = t.id
      ∧ (∀ u ∈ (replaceTag db id (applyUpdate t body)).tags,
            u.id ≠ id → u ∈ db.tags)
      ∧ (body.name = none → body.slug = none →
          (db.tags.map Tag.id).Nodup →
          PATCH sess id body db
            = (⟨200, .tagBody t (postCount db t.id)⟩, db)) := by
  have hP : PATCH sess id body db = patchUpdate id body db := by
    cases hb : (truthy body.name || truthy body.slug) <;>
      simp [PATCH, ha, hb, hc]
  have hPU : patchUpdate id body db
      = (⟨200, .tagBody (applyUpdate t body)
            (postCount db (applyUpdate t body).id)⟩,
         replaceTag db id (applyUpdate t body)) := by
    simp [patchUpdate, hf]
  have hid : t.id = id := by
    have := List.find?_some hf
    simpa using this
  refine ⟨hP.trans hPU, ?_, ?_, ?_, ?_, ?_⟩
  · intro h
    simp [applyUpdate, h]
  · intro h
    simp [applyUpdate, h]
  · simp [applyUpdate]
  · intro u hu hune
    unfold replaceTag at hu
    simp only [List.mem_map] at hu
    rcases hu with ⟨v, hv, heq⟩
    by_cases hvid : (v.id == id) = true
    · rw [if_pos hvid] at heq
      have : u.id = id := by
        rw [← heq]
        simp [applyUpdate, hid]
      exact absurd this hune
    · rw [if_neg hvid] at heq
      rw [← heq]
      exact hv
  · intro hn1 hn2 hnodup
    have happ : applyUpdate t body = t := by
      cases t
      simp [applyUpdate, hn1, hn2]
    have hrep : replaceTag db id t = db := replaceTag_self db id t hnodup hf
    rw [hP, hPU, happ, hrep]

/-- The empty update body of the spec's `PATCH /tags/t1 \x7b\x7d` scenario. -/
def bodyEmpty : TagUpdateData := ⟨none, none⟩

/-- Claim C4, witness at the spec's empty-body scenario on `t1`. -/
theorem patch_partial_update_witness :
    truthy (sessionUserId sessA) = true
    ∧ findUniqueTag dbW "t1" = some tagGo
    ∧ findConflictingTag dbW "t1" bodyEmpty.name bodyEmpty.slug = none
    ∧ (PATCH sessA "t1" bodyEmpty dbW
          = (⟨200, .tagBody (applyUpdate tagGo bodyEmpty)
                (postCount dbW (applyUpdate tagGo bodyEmpty).id)⟩,
             replaceTag dbW "t1" (applyUpdate tagGo bodyEmpty))
        ∧ (bodyEmpty.name = none →
            (applyUpdate tagGo bodyEmpty).name = tagGo.name)
        ∧ (bodyEmpty.slug = none →
            (applyUpdate tagGo bodyEmpty).slug = tagGo.slug)
        ∧ (applyUpdate tagGo bodyEmpty).id = tagGo.id
        ∧ (∀ u ∈ (replaceTag dbW "t1" (applyUpdate tagGo bodyEmpty)).tags,
              u.id ≠ "t1" → u ∈ dbW.tags)
        ∧ (bodyEmpty.name = none → bodyEmpty.slug = none →
            (dbW.tags.map Tag.id).Nodup →
            PATCH sessA "t1" bodyEmpty dbW
              = (⟨200, .tagBody tagGo (postCount dbW tagGo.id)⟩, dbW))) :=
  by
  refine ⟨by decide, by decide, by decide, ?_⟩
  exact patch_partial_update sessA "t1" bodyEmpty dbW tagGo
    (by decide) (by decide) (by decide)

end TagApi

namespace BlogUi

/-- Claim C9: the rendered badges are exactly the first at most 2
categories (variant `secondary`) followed by the first at most 3 tags
(variant `outline`), in the supplied order, however long the lists are. -/
theorem postcard_badges_truncated (p : PostData) :
    (PostCard p).badges
        = (p.categories.take 2).map (fun c => BadgeView.mk "secondary" c.name)
          ++ (p.tags.take 3).map (fun t => BadgeView.mk "outline" t.name)
    ∧ ((p.categories.take 2).map
        (fun c => BadgeView.mk "secondary" c.name)).length ≤ 2
    ∧ ((p.tags.take 3).map (fun t => BadgeView.mk "outline" t.name)).length ≤ 3
    ∧ (PostCard p).badges.length ≤ 5 := by
  refine ⟨?_, ?_, ?_, ?_⟩
  · simp [PostCard, jsSlice]
  · simp [List.length_take]
  · simp [List.length_take]
  · simp [PostCard, jsSlice, List.length_take]
    omega

/-- A post with no excerpt (used by the C10 witness). -/
def postNoExcerpt : PostData :=
  ⟨"Hello", "hello", none, none, "2024-01-01", ⟨"Ann", none⟩, [], []⟩

/-- A post with a non-empty excerpt (used by the C10 witness). -/
def postWithExcerpt : PostData :=
  ⟨"Hi", "hi", some "An intro", some "2024-01-02", "2024-01-01",
   ⟨"Bob", some "img.png"⟩, [], []⟩

/-- Claim C10: with an absent excerpt no excerpt block is rendered at all;
with a non-empty excerpt the block is rendered with that text. -/
theorem postcard_excerpt_block (p : PostData) :
    (p.excerpt = none → (PostCard p).excerptBlock = none)
    ∧ (∀ e, p.excerpt = some e → e ≠ "" →
        (PostCard p).excerptBlock = some e) := by
  constructor
  · intro h
    simp [PostCard, h]
  · intro e he hne
    simp [PostCard, he, hne]

/-- Claim C10, witness: a post without and a post with an excerpt. -/
theorem postcard_excerpt_block_witness :
    postNoExcerpt.excerpt = none
    ∧ (PostCard postNoExcerpt).excerptBlock = none
    ∧ postWithExcerpt.excerpt = some "An intro"
    ∧ "An intro" ≠ ""
    ∧ (PostCard postWithExcerpt).excerptBlock = some "An intro" :=
  ⟨rfl, (postcard_excerpt_block postNoExcerpt).1 rfl, rfl, by decide,
   (postcard_excerpt_block postWithExcerpt).2 "An intro" rfl (by decide)⟩

end BlogUi
